import Mathlib

/-
Verification development for the tecopos-helpcenter application (src/main.py).

The application is embedded shallowly:
* Python strings are lists of characters (`Str`); Python's truthiness test on a
  string is emptiness, `s or d` is `pyOrStr`/`pyOr`, `"\n".join` is `joinNl`,
  `s.split("\n")` is `splitNl`, the substring operator `x in s` (and the
  equivalent idiom `s.find(x) != -1`) is `pyIn`, `s.lower()` is `pyLower`.
* The pydantic models `ErrorBase`/`Error` and the ORM row `ErrorORM` are Lean
  structures; `Optional[str]` is `Option Str`.  Columns that the code reads
  defensively with `or` and that are nullable in the schema are `Option Str`
  on the row; NOT NULL columns are plain `Str`.
* The database table is a list of rows (`Store`); `query.filter(id==).first()`
  is `List.find?`, row deletion removes that row from the list, insertion
  appends a row whose id is fresh (the autoincrement primary key is modelled
  as one more than the largest id in the table).
* The view handlers are embedded as the computation of the `filtered` list
  handed to the template; an expression that can raise an `AttributeError`
  (attribute access on a possibly-`None` value) is modelled in `Option`, with
  `none` standing for the raised exception.
* `ensure_extra_columns` acts on the list of column names of the live table;
  each ALTER statement is represented by the name of the column it adds.
-/

namespace HelpCenter

/-- Python strings, modelled as lists of characters. -/
abbrev Str := List Char

/-- Python `s.lower()`. -/
def pyLower (s : Str) : Str := s.map Char.toLower

/-- Python `needle in hay` for strings (also the idiom `hay.find(needle) != -1`):
the contiguous-substring test. -/
def pyIn (needle hay : Str) : Bool := decide (needle <:+: hay)

/-- Python `s or d` where `s` is a string: `d` if `s` is empty (falsy), else `s`. -/
def pyOrStr (s d : Str) : Str := if s.isEmpty then d else s

/-- Python `x or d` where `x : Optional[str]` and `d` a string: `d` when `x` is
`None` or the empty string, else the string held by `x`. -/
def pyOr (o : Option Str) (d : Str) : Str :=
  match o with
  | none => d
  | some s => if s.isEmpty then d else s

/-- Python `x or None` where `x : Optional[str]`: `None` when `x` is `None` or
empty, else `x` itself. -/
def pyOrNone (o : Option Str) : Option Str :=
  match o with
  | none => none
  | some s => if s.isEmpty then none else some s

/-- Python `"\n".join(l)`. -/
def joinNl (l : List Str) : Str := List.intercalate ['\n'] l

/-- Python `s.split("\n")` (single-character separator). -/
def splitNl (s : Str) : List Str := List.splitOn '\n' s

/-- The pydantic model `ErrorBase` of src/main.py (an article draft, no id),
with the same field names and defaults. -/
structure ErrorBase where
  type : Str := "error".toList
  title : Str
  primary_category : Str := "errores".toList
  category : Str := []
  is_common : Bool := false
  short_description : Option Str := none
  description : Option Str := none
  client_message : Option Str := none
  causes : List Str := []
  quick_steps : List Str := []
  internal_steps : List Str := []
  steps : List Str := []
  answer : Option Str := none
  tags : List Str := []
  images : List Str := []
  video_url : Option Str := none
deriving DecidableEq

/-- The pydantic model `Error` of src/main.py: an `ErrorBase` plus the id. -/
structure Error extends ErrorBase where
  id : Int
deriving DecidableEq

/-- A row of the `errors` table (the ORM class `ErrorORM`).  Columns that are
NOT NULL in the schema are `Str`; nullable columns are `Option Str`. -/
structure ErrorORM where
  id : Int
  type : Str
  title : Str
  short_description : Str
  category : Str
  is_common : Bool
  client_message : Str
  causes_text : Option Str
  quick_steps_text : Option Str
  internal_steps_text : Option Str
  images_text : Option Str
  video_url : Option Str
  primary_category : Str
  description : Option Str
  steps_text : Option Str
  answer_text : Option Str
  tags_text : Option Str
deriving DecidableEq

/-- The dictionary built by `pydantic_to_orm_data` (the keyword arguments of
`ErrorORM(**orm_data)`), with the dictionary's value types: the list fields
have been joined into plain strings, `answer_text` is the one nullable one. -/
structure OrmData where
  type : Str
  title : Str
  primary_category : Str
  category : Str
  short_description : Str
  description : Option Str
  is_common : Bool
  client_message : Str
  causes_text : Str
  quick_steps_text : Str
  internal_steps_text : Str
  steps_text : Str
  answer_text : Option Str
  tags_text : Str
  images_text : Str
  video_url : Option Str
deriving DecidableEq

/-- The function `orm_to_pydantic` of src/main.py: convert a row to a pydantic `Error`.
Each list field is read as `(text or "").split("\n")` keeping the non-empty
segments; `primary_category` and `category` are read with `or` defaults. -/
def orm_to_pydantic (e : ErrorORM) : Error :=
  { id := e.id
    type := e.type
    title := e.title
    primary_category := pyOrStr e.primary_category ("errores".toList)
    category := pyOrStr e.category []
    is_common := e.is_common
    short_description := some e.short_description
    description := e.description
    client_message := some e.client_message
    causes := (splitNl (pyOr e.causes_text [])).filter (fun c => !c.isEmpty)
    quick_steps := (splitNl (pyOr e.quick_steps_text [])).filter (fun c => !c.isEmpty)
    internal_steps := (splitNl (pyOr e.internal_steps_text [])).filter (fun c => !c.isEmpty)
    steps := (splitNl (pyOr e.steps_text [])).filter (fun c => !c.isEmpty)
    answer := e.answer_text
    tags := (splitNl (pyOr e.tags_text [])).filter (fun c => !c.isEmpty)
    images := (splitNl (pyOr e.images_text [])).filter (fun c => !c.isEmpty)
    video_url := e.video_url }

/-- The function `pydantic_to_orm_data` of src/main.py: convert a draft to the row data
dictionary.  `category`, `short_description` and `client_message` are coalesced
to `""` with `or`; the list fields are newline-joined; `answer_text` is
`data.answer or None`. -/
def pydantic_to_orm_data (data : ErrorBase) : OrmData :=
  { type := data.type
    title := data.title
    primary_category := data.primary_category
    category := pyOrStr data.category []
    short_description := pyOr data.short_description []
    description := data.description
    is_common := data.is_common
    client_message := pyOr data.client_message []
    causes_text := joinNl data.causes
    quick_steps_text := joinNl data.quick_steps
    internal_steps_text := joinNl data.internal_steps
    steps_text := joinNl data.steps
    answer_text := pyOrNone data.answer
    tags_text := joinNl data.tags
    images_text := joinNl data.images
    video_url := data.video_url }

/-- The constructor call `ErrorORM(**orm_data)` with a given primary key: every string value of the
dictionary becomes a non-null column value. -/
def mkOrm (id : Int) (o : OrmData) : ErrorORM :=
  { id := id
    type := o.type
    title := o.title
    short_description := o.short_description
    category := o.category
    is_common := o.is_common
    client_message := o.client_message
    causes_text := some o.causes_text
    quick_steps_text := some o.quick_steps_text
    internal_steps_text := some o.internal_steps_text
    images_text := some o.images_text
    video_url := o.video_url
    primary_category := o.primary_category
    description := o.description
    steps_text := some o.steps_text
    answer_text := o.answer_text
    tags_text := some o.tags_text }

/-- The record → row → record round trip: store a draft under some id and read
it back. -/
def roundTrip (n : Int) (d : ErrorBase) : Error :=
  orm_to_pydantic (mkOrm n (pydantic_to_orm_data d))

/-- The `errors` table, as a list of rows. -/
abbrev Store := List ErrorORM

/-- The function `get_error_by_id` of src/main.py: first row with the id, mapped, else
`None`. -/
def get_error_by_id (db : Store) (error_id : Int) : Option Error :=
  (db.find? (fun r => r.id == error_id)).map orm_to_pydantic

/-- The function `delete_error_by_id` of src/main.py: find the first row with the id and, if
present, delete that row (deletion by primary key removes it from the table). -/
def delete_error_by_id (db : Store) (error_id : Int) : Store :=
  match db.find? (fun r => r.id == error_id) with
  | none => db
  | some _ => db.eraseP (fun r => r.id == error_id)

/-- The autoincrement primary key of the store: one more than the largest id
(the exact policy of the database sequence is immaterial to the claims). -/
def nextId (db : Store) : Int := 1 + db.foldr (fun r m => max r.id m) 0

/-- The function `create_error_db` of src/main.py: build the row data, insert the row, and
return the mapped article (with the assigned id). -/
def create_error_db (db : Store) (data : ErrorBase) : Store × Error :=
  let row := mkOrm (nextId db) (pydantic_to_orm_data data)
  (db ++ [row], orm_to_pydantic row)

/-- The response of the detail handler: either a plain HTML body with a status
code, or the rendered article page. -/
inductive DetailResponse
  | html (body : Str) (status : Nat)
  | page (article : Error)
deriving DecidableEq

/-- The handler `error_detail` of src/main.py: 404 with body "Error no encontrado" when the
article is missing, the article page otherwise. -/
def error_detail (db : Store) (error_id : Int) : DetailResponse :=
  match get_error_by_id db error_id with
  | none => DetailResponse.html ("Error no encontrado".toList) 404
  | some err => DetailResponse.page err

/-- First seed article of `seed_initial_data` (src/main.py). -/
def e1 : ErrorBase :=
  { type := "error".toList
    title := "No tiene permisos para realizar esta acción".toList
    primary_category := "errores".toList
    category := "roles-permisos".toList
    is_common := true
    short_description := some ("El usuario no tiene acceso al módulo seleccionado.".toList)
    client_message := some ("No tiene permisos para realizar esta acción".toList)
    causes := ["El usuario no tiene un rol asignado.".toList,
               "El rol no permite acceder a ese módulo.".toList,
               "Está en el negocio incorrecto.".toList]
    quick_steps := ["Cerrar sesión y volver a entrar.".toList,
                    "Verificar negocio seleccionado.".toList,
                    "Solicitar al administrador revisar el rol.".toList]
    internal_steps := ["Revisar permisos del rol.".toList,
                       "Confirmar negocio asignado.".toList]
    images := []
    video_url := none }

/-- Second seed article of `seed_initial_data` (src/main.py). -/
def e2 : ErrorBase :=
  { type := "error".toList
    title := "Pantalla en blanco al iniciar sesión".toList
    primary_category := "errores".toList
    category := "errores-comunes".toList
    is_common := true
    short_description := some ("Suele ocurrir por caché acumulada o sesión expirada.".toList)
    client_message := some ("La pantalla queda en blanco después de iniciar sesión.".toList)
    causes := ["Caché del navegador desactualizada.".toList,
               "Sesión de usuario vencida.".toList]
    quick_steps := ["Refrescar con Ctrl + F5.".toList,
                    "Cerrar sesión y volver a entrar.".toList,
                    "Probar en otro navegador.".toList]
    internal_steps := []
    images := []
    video_url := none }

/-- The function `seed_initial_data` of src/main.py: if the table has any row, return
unchanged; otherwise create the two example articles through
`create_error_db`. -/
def seed_initial_data (db : Store) : Store :=
  if 0 < db.length then db
  else (create_error_db (create_error_db db e1).1 e2).1

/-- The home handler's filtering (the `filtered` list handed to the template):
a non-empty `category` parameter filters by exact category match, otherwise the
`is_common` default applies; a non-empty `q` further filters by the
case-insensitive text search of the source (`q_lower in title.lower()` and
`.find(q_lower) != -1` on the `or ""`-guarded optional fields). -/
def home (all_items : List Error) (q category : Str) : List Error :=
  let filtered :=
    if !category.isEmpty then all_items.filter (fun item => item.category == category)
    else all_items.filter (fun item => item.is_common)
  if !q.isEmpty then
    let q_lower := pyLower q
    filtered.filter (fun item =>
      pyIn q_lower (pyLower item.title) ||
      pyIn q_lower (pyLower (pyOr item.short_description [])) ||
      pyIn q_lower (pyLower (pyOr item.client_message [])))
  else filtered

/-- One step of the errors-list search condition: `q_lower in e.title.lower()
or q_lower in e.short_description.lower() or q_lower in
e.client_message.lower()`, evaluated with Python's short-circuit `or`.  The
optional fields are read without an `or ""` guard, so `.lower()` on an absent
value raises `AttributeError`, modelled as `none`. -/
def errorsMatch (q_lower : Str) (e : Error) : Option Bool :=
  if pyIn q_lower (pyLower e.title) then some true
  else
    match e.short_description with
    | none => none
    | some sd =>
      if pyIn q_lower (pyLower sd) then some true
      else
        match e.client_message with
        | none => none
        | some cm => some (pyIn q_lower (pyLower cm))

/-- A list comprehension whose condition can raise: the elements are tested in
order and the first raised exception aborts the whole comprehension. -/
def filterOpt (p : α → Option Bool) : List α → Option (List α)
  | [] => some []
  | x :: xs =>
    match p x with
    | none => none
    | some b =>
      match filterOpt p xs with
      | none => none
      | some rest => some (if b then x :: rest else rest)

/-- The errors-list handler's filtering (the `filtered` list handed to the
template): everything unless `category` is given, then the text search of the
source, which reads `short_description` and `client_message` without a guard. -/
def errors_list (all_errors : List Error) (q category : Str) : Option (List Error) :=
  let filtered :=
    if !category.isEmpty then all_errors.filter (fun e => e.category == category)
    else all_errors
  if !q.isEmpty then filterOpt (errorsMatch (pyLower q)) filtered
  else some filtered

/-- The `type_to_category` dictionary lookup of the docs handler, with the
`.get(doc_type, doc_type)` fallback to the token itself. -/
def type_to_category (doc_type : Str) : Str :=
  if doc_type = "error".toList then "errores".toList
  else if doc_type = "guia".toList then "guias".toList
  else if doc_type = "comportamiento".toList then "buenas-practicas".toList
  else if doc_type = "faq".toList then "faq".toList
  else if doc_type = "novedad".toList then "novedades".toList
  else doc_type

/-- The docs-by-type handler's filtering: keep articles whose `type` equals the
token and whose `primary_category` equals the mapped category. -/
def docs_by_type (all_items : List Error) (doc_type : Str) : List Error :=
  all_items.filter (fun item =>
    item.type == doc_type && item.primary_category == type_to_category doc_type)

/-- The schema of the live table, as its list of column names. -/
abbrev Schema := List Str

/-- The five extended columns that `ensure_extra_columns` reconciles. -/
def extraColumns : Schema :=
  ["primary_category".toList, "description".toList, "steps_text".toList,
   "answer_text".toList, "tags_text".toList]

/-- The `ddl_statements` list built by `ensure_extra_columns`: one ALTER
statement per missing extended column, in source order; each statement is
represented by the name of the column it adds. -/
def ensure_ddl (cols : Schema) : List Str :=
  (if "primary_category".toList ∈ cols then [] else ["primary_category".toList]) ++
  (if "description".toList ∈ cols then [] else ["description".toList]) ++
  (if "steps_text".toList ∈ cols then [] else ["steps_text".toList]) ++
  (if "answer_text".toList ∈ cols then [] else ["answer_text".toList]) ++
  (if "tags_text".toList ∈ cols then [] else ["tags_text".toList])

/-- Executing the ALTER statements in order: each one adds its column to the
live schema. -/
def run_ddl (cols : Schema) (stmts : List Str) : Schema :=
  stmts.foldl (fun cs c => cs ++ [c]) cols

/-- The function `ensure_extra_columns` of src/main.py: inspect the columns, build the DDL
list, execute it. -/
def ensure_extra_columns (cols : Schema) : Schema :=
  run_ddl cols (ensure_ddl cols)

/-- An SQL column value, for stating nullability facts about rows. -/
inductive SqlVal
  | null
  | str (s : Str)
deriving DecidableEq

/-- The column value of an `Optional[str]` field. -/
def sqlOfOpt : Option Str → SqlVal
  | none => SqlVal.null
  | some s => SqlVal.str s

/-- The value the row data dictionary supplies for a given text column. -/
def rowValue (o : OrmData) (c : Str) : SqlVal :=
  if c = "type".toList then SqlVal.str o.type
  else if c = "title".toList then SqlVal.str o.title
  else if c = "primary_category".toList then SqlVal.str o.primary_category
  else if c = "category".toList then SqlVal.str o.category
  else if c = "short_description".toList then SqlVal.str o.short_description
  else if c = "description".toList then sqlOfOpt o.description
  else if c = "client_message".toList then SqlVal.str o.client_message
  else if c = "causes_text".toList then SqlVal.str o.causes_text
  else if c = "quick_steps_text".toList then SqlVal.str o.quick_steps_text
  else if c = "internal_steps_text".toList then SqlVal.str o.internal_steps_text
  else if c = "steps_text".toList then SqlVal.str o.steps_text
  else if c = "answer_text".toList then sqlOfOpt o.answer_text
  else if c = "tags_text".toList then SqlVal.str o.tags_text
  else if c = "images_text".toList then SqlVal.str o.images_text
  else if c = "video_url".toList then sqlOfOpt o.video_url
  else SqlVal.null

/-- Modelled on the spec's search rule: the query is a case-insensitive
substring of the title, the short description or the client message, an absent
field read as the empty string. -/
def searchMatchesSpec (q : Str) (item : Error) : Bool :=
  pyIn (pyLower q) (pyLower item.title) ||
  pyIn (pyLower q) (pyLower (item.short_description.getD [])) ||
  pyIn (pyLower q) (pyLower (item.client_message.getD []))

/-- A list whose entries are newline-free. -/
abbrev newlineFree (l : List Str) : Prop := ∀ s ∈ l, '\n' ∉ s

/-- A list whose entries are non-empty and newline-free. -/
abbrev goodList (l : List Str) : Prop := ∀ s ∈ l, s ≠ [] ∧ '\n' ∉ s

/-- All six list fields of a draft are non-empty and newline-free. -/
abbrev listsGood (d : ErrorBase) : Prop :=
  goodList d.causes ∧ goodList d.quick_steps ∧ goodList d.internal_steps ∧
  goodList d.steps ∧ goodList d.tags ∧ goodList d.images

/-- Record used in counterexamples to the round-trip claim: its optional scalar
fields are absent and its visible primary category is the empty string. -/
def cex1 : ErrorBase :=
  { title := ['t'], primary_category := [], short_description := none, client_message := none }

/-- Record used in the counterexample to the blank-entry claim: its causes hold
an empty string and an entry containing a newline. -/
def cex2 : ErrorBase := { title := ['t'], causes := [[], ['a', '\n', 'b']] }

/-- Concrete record exercising the amended round-trip theorem. -/
def wit1 : ErrorBase :=
  { title := "Pantalla en blanco".toList
    category := "ux".toList
    short_description := some ("detalle".toList)
    client_message := some ("mensaje".toList)
    causes := ["una".toList, "dos".toList]
    quick_steps := ["paso".toList]
    steps := ["s1".toList]
    answer := some []
    tags := ["t1".toList, "t2".toList]
    images := ["i".toList] }

/-- Concrete record with blank entries exercising the amended blank-entry
theorem. -/
def wit2 : ErrorBase :=
  { title := ['t'], causes := [[], ['a'], [], ['b']], tags := [['x'], []] }

theorem pyOrStr_nil (s : Str) : pyOrStr s [] = s := by
  unfold pyOrStr
  split
  · next h => exact (List.isEmpty_iff.mp h).symm
  · rfl

theorem pyOr_some_nil (s : Str) : pyOr (some s) [] = s := pyOrStr_nil s

theorem pyOr_nil_getD (o : Option Str) : pyOr o [] = o.getD [] := by
  cases o with
  | none => rfl
  | some s => exact pyOr_some_nil s

theorem splitNl_joinNl_filter (l : List Str) (h : ∀ s ∈ l, '\n' ∉ s) :
    (splitNl (joinNl l)).filter (fun c => !c.isEmpty) = l.filter (fun c => !c.isEmpty) := by
  cases l with
  | nil => rfl
  | cons a t =>
    rw [joinNl, splitNl, List.splitOn_intercalate (a :: t) '\n' h (by simp)]

theorem roundtrip_list_filter (l : List Str) (h : newlineFree l) :
    (splitNl (pyOr (some (joinNl l)) [])).filter (fun c => !c.isEmpty) =
      l.filter (fun c => !c.isEmpty) := by
  rw [pyOr_some_nil]
  exact splitNl_joinNl_filter l h

theorem roundtrip_list_exact (l : List Str) (h : goodList l) :
    (splitNl (pyOr (some (joinNl l)) [])).filter (fun c => !c.isEmpty) = l := by
  rw [roundtrip_list_filter l (fun s hs => (h s hs).2), List.filter_eq_self.mpr]
  intro a ha
  simpa using (h a ha).1

theorem empty_not_mem_clean (l : List Str) : [] ∉ l.filter (fun c => !c.isEmpty) := by
  simp [List.mem_filter]

/-- Claim C1 counterexample: a record whose list fields are trivially non-empty
and newline-free, whose absent `short_description` and `client_message` come
back as present empty strings, and whose empty `primary_category` comes back as
"errores" — so the round trip does not reproduce the scalar fields exactly. -/
theorem c1_counterexample :
    listsGood cex1 ∧
    cex1.short_description = none ∧ (roundTrip 1 cex1).short_description = some [] ∧
    cex1.client_message = none ∧ (roundTrip 1 cex1).client_message = some [] ∧
    cex1.primary_category = [] ∧ (roundTrip 1 cex1).primary_category = "errores".toList := by
  exact ⟨by decide, rfl, rfl, rfl, rfl, rfl, rfl⟩

/-- Claim C1 (amended): for a record whose list fields hold only non-empty,
newline-free strings, the round trip reproduces the list fields and the scalar
fields exactly, except that an empty or absent `answer` comes back absent, an
absent `short_description` or `client_message` comes back as the present empty
string, and an empty `primary_category` comes back as "errores". -/
theorem c1_amended (n : Int) (d : ErrorBase) (h : listsGood d) :
    (roundTrip n d).causes = d.causes ∧
    (roundTrip n d).quick_steps = d.quick_steps ∧
    (roundTrip n d).internal_steps = d.internal_steps ∧
    (roundTrip n d).steps = d.steps ∧
    (roundTrip n d).tags = d.tags ∧
    (roundTrip n d).images = d.images ∧
    (roundTrip n d).type = d.type ∧
    (roundTrip n d).title = d.title ∧
    (roundTrip n d).category = d.category ∧
    (roundTrip n d).is_common = d.is_common ∧
    (roundTrip n d).description = d.description ∧
    (roundTrip n d).video_url = d.video_url ∧
    (roundTrip n d).short_description = some (pyOr d.short_description []) ∧
    (roundTrip n d).client_message = some (pyOr d.client_message []) ∧
    (roundTrip n d).primary_category = pyOrStr d.primary_category ("errores".toList) ∧
    (roundTrip n d).answer = pyOrNone d.answer := by
  obtain ⟨h1, h2, h3, h4, h5, h6⟩ := h
  refine ⟨roundtrip_list_exact _ h1, roundtrip_list_exact _ h2, roundtrip_list_exact _ h3,
    roundtrip_list_exact _ h4, roundtrip_list_exact _ h5, roundtrip_list_exact _ h6,
    rfl, rfl, ?_, rfl, rfl, rfl, rfl, rfl, rfl, rfl⟩
  show pyOrStr (pyOrStr d.category []) [] = d.category
  rw [pyOrStr_nil, pyOrStr_nil]

/-- Witness for the amended round-trip theorem at a concrete record. -/
theorem c1_amended_witness :
    listsGood wit1 ∧
    ((roundTrip 7 wit1).causes = wit1.causes ∧
     (roundTrip 7 wit1).quick_steps = wit1.quick_steps ∧
     (roundTrip 7 wit1).internal_steps = wit1.internal_steps ∧
     (roundTrip 7 wit1).steps = wit1.steps ∧
     (roundTrip 7 wit1).tags = wit1.tags ∧
     (roundTrip 7 wit1).images = wit1.images ∧
     (roundTrip 7 wit1).type = wit1.type ∧
     (roundTrip 7 wit1).title = wit1.title ∧
     (roundTrip 7 wit1).category = wit1.category ∧
     (roundTrip 7 wit1).is_common = wit1.is_common ∧
     (roundTrip 7 wit1).description = wit1.description ∧
     (roundTrip 7 wit1).video_url = wit1.video_url ∧
     (roundTrip 7 wit1).short_description = some (pyOr wit1.short_description []) ∧
     (roundTrip 7 wit1).client_message = some (pyOr wit1.client_message []) ∧
     (roundTrip 7 wit1).primary_category = pyOrStr wit1.primary_category ("errores".toList) ∧
     (roundTrip 7 wit1).answer = pyOrNone wit1.answer) :=
  ⟨by decide, c1_amended 7 wit1 (by decide)⟩

/-- Claim C2 counterexample: the record's causes contain an empty string, yet
after the round trip the non-empty original entry "a\nb" does not appear in the
result at all (the newline splits it in two), so the surviving list is not the
original non-empty entries in order. -/
theorem c2_counterexample :
    [] ∈ cex2.causes ∧
    ('a' :: '\n' :: 'b' :: []) ∈ cex2.causes ∧ ('a' :: '\n' :: 'b' :: []) ≠ [] ∧
    ('a' :: '\n' :: 'b' :: []) ∉ (roundTrip 1 cex2).causes ∧
    (roundTrip 1 cex2).causes ≠ cex2.causes.filter (fun s => !s.isEmpty) := by
  decide

/-- Claim C2 (amended): for a record whose list entries are newline-free, every
round-tripped list field equals the original list with its empty entries
dropped — in particular it contains no empty strings and keeps the remaining
entries in their original relative order. -/
theorem c2_amended (n : Int) (d : ErrorBase)
    (h1 : newlineFree d.causes) (h2 : newlineFree d.quick_steps)
    (h3 : newlineFree d.internal_steps) (h4 : newlineFree d.steps)
    (h5 : newlineFree d.tags) (h6 : newlineFree d.images) :
    ((roundTrip n d).causes = d.causes.filter (fun s => !s.isEmpty) ∧
     (roundTrip n d).quick_steps = d.quick_steps.filter (fun s => !s.isEmpty) ∧
     (roundTrip n d).internal_steps = d.internal_steps.filter (fun s => !s.isEmpty) ∧
     (roundTrip n d).steps = d.steps.filter (fun s => !s.isEmpty) ∧
     (roundTrip n d).tags = d.tags.filter (fun s => !s.isEmpty) ∧
     (roundTrip n d).images = d.images.filter (fun s => !s.isEmpty)) ∧
    ([] ∉ (roundTrip n d).causes ∧ [] ∉ (roundTrip n d).quick_steps ∧
     [] ∉ (roundTrip n d).internal_steps ∧ [] ∉ (roundTrip n d).steps ∧
     [] ∉ (roundTrip n d).tags ∧ [] ∉ (roundTrip n d).images) :=
  ⟨⟨roundtrip_list_filter _ h1, roundtrip_list_filter _ h2, roundtrip_list_filter _ h3,
    roundtrip_list_filter _ h4, roundtrip_list_filter _ h5, roundtrip_list_filter _ h6⟩,
   ⟨empty_not_mem_clean _, empty_not_mem_clean _, empty_not_mem_clean _,
    empty_not_mem_clean _, empty_not_mem_clean _, empty_not_mem_clean _⟩⟩

/-- Witness for the amended blank-entry theorem at a concrete record with blank
entries. -/
theorem c2_amended_witness :
    (newlineFree wit2.causes ∧ newlineFree wit2.quick_steps ∧
     newlineFree wit2.internal_steps ∧ newlineFree wit2.steps ∧
     newlineFree wit2.tags ∧ newlineFree wit2.images) ∧
    (((roundTrip 3 wit2).causes = wit2.causes.filter (fun s => !s.isEmpty) ∧
      (roundTrip 3 wit2).quick_steps = wit2.quick_steps.filter (fun s => !s.isEmpty) ∧
      (roundTrip 3 wit2).internal_steps = wit2.internal_steps.filter (fun s => !s.isEmpty) ∧
      (roundTrip 3 wit2).steps = wit2.steps.filter (fun s => !s.isEmpty) ∧
      (roundTrip 3 wit2).tags = wit2.tags.filter (fun s => !s.isEmpty) ∧
      (roundTrip 3 wit2).images = wit2.images.filter (fun s => !s.isEmpty)) ∧
     ([] ∉ (roundTrip 3 wit2).causes ∧ [] ∉ (roundTrip 3 wit2).quick_steps ∧
      [] ∉ (roundTrip 3 wit2).internal_steps ∧ [] ∉ (roundTrip 3 wit2).steps ∧
      [] ∉ (roundTrip 3 wit2).tags ∧ [] ∉ (roundTrip 3 wit2).images)) :=
  ⟨⟨by decide, by decide, by decide, by decide, by decide, by decide⟩,
   c2_amended 3 wit2 (by decide) (by decide) (by decide) (by decide) (by decide) (by decide)⟩

/-- Article with category "a", featured, as in the spec's filter example. -/
def artA : Error := { id := 1, title := ['a'], category := ['a'], is_common := true }

/-- Article with category "b", not featured, as in the spec's filter example. -/
def artB : Error := { id := 2, title := ['b'], category := ['b'], is_common := false }

/-- Article with both optional search fields present. -/
def artC : Error :=
  { id := 3, title := "Pantalla".toList, category := ['m'], is_common := true,
    short_description := some ("detalle".toList), client_message := some ("msg".toList) }

/-- Article whose optional search fields are absent. -/
def cex4 : Error := { id := 1, title := ['t'], short_description := none, client_message := none }

/-- Article of an unknown document type whose primary category equals its type. -/
def cex5 : Error := { id := 1, title := ['t'], type := ['x'], primary_category := ['x'] }

/-- Concrete stored rows used as witnesses for the repository operations. -/
def row5 : ErrorORM := mkOrm 5 (pydantic_to_orm_data wit1)

/-- A second concrete stored row with a distinct id. -/
def row6 : ErrorORM := mkOrm 6 (pydantic_to_orm_data wit2)

/-- Claim C3: with no category parameter (and no query) the home view keeps
exactly the articles flagged `is_common`; a non-empty category parameter
replaces that default with an exact category match, is_common ignored. -/
theorem c3_home_filters (items : List Error) (c : Str) (hc : c ≠ []) :
    home items [] [] = items.filter (fun i => i.is_common) ∧
    home items [] c = items.filter (fun i => i.category == c) := by
  constructor
  · rfl
  · simp [home, List.isEmpty_eq_false.mpr hc]

/-- Witness for the home filter theorem on the spec's two example articles. -/
theorem c3_witness :
    ((['b'] : Str) ≠ []) ∧
    (home [artA, artB] [] [] = ([artA, artB] : List Error).filter (fun i => i.is_common) ∧
     home [artA, artB] [] ['b'] = ([artA, artB] : List Error).filter (fun i => i.category == ['b'])) :=
  ⟨by decide, c3_home_filters [artA, artB] ['b'] (by decide)⟩

theorem errorsMatch_eq_some (q : Str) (e : Error)
    (h1 : e.short_description.isSome) (h2 : e.client_message.isSome) :
    errorsMatch (pyLower q) e = some (searchMatchesSpec q e) := by
  obtain ⟨sd, hsd⟩ := Option.isSome_iff_exists.mp h1
  obtain ⟨cm, hcm⟩ := Option.isSome_iff_exists.mp h2
  simp only [errorsMatch, searchMatchesSpec, hsd, hcm, Option.getD_some]
  by_cases ht : pyIn (pyLower q) (pyLower e.title) <;>
    by_cases hs : pyIn (pyLower q) (pyLower sd) <;> simp [ht, hs]

theorem filterOpt_eq_filter {α : Type} (p : α → Option Bool) (f : α → Bool) (l : List α)
    (h : ∀ x ∈ l, p x = some (f x)) : filterOpt p l = some (l.filter f) := by
  induction l with
  | nil => rfl
  | cons a t ih =>
    simp only [filterOpt, h a (List.mem_cons_self a t),
      ih (fun x hx => h x (List.mem_cons_of_mem a hx)), List.filter_cons]

/-- Claim C4 counterexample: searching the errors list over an article whose
`short_description` is absent raises (`.lower()` on `None`), modelled by the
view returning `none` — so the errors list does not treat an absent field as
the empty string and can error. -/
theorem c4_counterexample : errors_list [cex4] ['x'] [] = none := by decide

/-- Claim C4 (amended): for a non-empty query, the home view restricts its
category-stage result to the articles matching the spec's case-insensitive
substring rule (absent fields read as empty; the home view never raises); the
errors list applies the same rule without the is_common default, but reads the
optional fields unguarded, so it is only raise-free — and then agrees with the
rule — when every article carries both `short_description` and
`client_message`, as every stored row does. -/
theorem c4_amended (items : List Error) (q c : Str) (hq : q ≠ []) :
    home items q c =
      (if c.isEmpty then items.filter (fun i => i.is_common)
       else items.filter (fun i => i.category == c)).filter (searchMatchesSpec q) ∧
    ((∀ e ∈ items, e.short_description.isSome ∧ e.client_message.isSome) →
      errors_list items q c =
        some ((if c.isEmpty then items
               else items.filter (fun i => i.category == c)).filter (searchMatchesSpec q))) := by
  have hq' : q.isEmpty = false := List.isEmpty_eq_false.mpr hq
  have hfil : ∀ l : List Error, l.filter (fun item =>
      pyIn (pyLower q) (pyLower item.title) ||
      pyIn (pyLower q) (pyLower (pyOr item.short_description [])) ||
      pyIn (pyLower q) (pyLower (pyOr item.client_message []))) =
      l.filter (searchMatchesSpec q) := by
    intro l
    apply List.filter_congr
    intro x _
    simp [searchMatchesSpec, pyOr_nil_getD]
  constructor
  · cases hce : c.isEmpty with
    | true =>
      simp only [home, hq', Bool.not_false, if_true, hce, Bool.not_true, if_false, if_true]
      exact hfil _
    | false =>
      simp only [home, hq', Bool.not_false, if_true, hce, Bool.not_false, if_false]
      exact hfil _
  · intro hp
    have hstep : ∀ l : List Error, (∀ x ∈ l, x.short_description.isSome ∧ x.client_message.isSome) →
        filterOpt (errorsMatch (pyLower q)) l = some (l.filter (searchMatchesSpec q)) := by
      intro l hl
      exact filterOpt_eq_filter _ _ _ (fun x hx => errorsMatch_eq_some q x (hl x hx).1 (hl x hx).2)
    cases hce : c.isEmpty with
    | true =>
      simp only [errors_list, hq', Bool.not_false, if_true, hce, Bool.not_true, if_false]
      exact hstep items hp
    | false =>
      simp only [errors_list, hq', Bool.not_false, if_true, hce, Bool.not_false, if_false]
      exact hstep _ (fun x hx => hp x (List.mem_filter.mp hx).1)

/-- Witness for the amended search theorem on an article with both optional
fields present. -/
theorem c4_witness :
    (("an".toList : Str) ≠ []) ∧
    (∀ e ∈ ([artC] : List Error), e.short_description.isSome ∧ e.client_message.isSome) ∧
    home [artC] "an".toList [] =
      (if ([] : Str).isEmpty then ([artC] : List Error).filter (fun i => i.is_common)
       else ([artC] : List Error).filter (fun i => i.category == [])).filter
        (searchMatchesSpec ("an".toList)) ∧
    errors_list [artC] "an".toList [] =
      some ((if ([] : Str).isEmpty then ([artC] : List Error)
             else ([artC] : List Error).filter (fun i => i.category == [])).filter
        (searchMatchesSpec ("an".toList))) :=
  ⟨by decide, by decide, (c4_amended [artC] "an".toList [] (by decide)).1,
   (c4_amended [artC] "an".toList [] (by decide)).2 (by decide)⟩

/-- Claim C5 counterexample: "x" is outside the fixed type mapping, yet the
by-type view is not empty on a store holding an article whose type and primary
category are both "x" — the fallback is literal equality, not emptiness. -/
theorem c5_counterexample :
    (['x'] : Str) ∉ ["error".toList, "guia".toList, "comportamiento".toList,
      "faq".toList, "novedad".toList] ∧
    docs_by_type [cex5] ['x'] = [cex5] ∧ docs_by_type [cex5] ['x'] ≠ [] := by
  decide

/-- Claim C5 (amended): the by-type view returns exactly the articles whose
type equals the token and whose primary category equals the token's image under
the fixed mapping; a token outside the mapping maps to itself, so the view then
filters by literal equality on both fields (empty only when no such article is
stored) and never errors. -/
theorem c5_docs_by_type (items : List Error) (t : Str) :
    (∀ i, i ∈ docs_by_type items t ↔
      i ∈ items ∧ i.type = t ∧ i.primary_category = type_to_category t) ∧
    type_to_category ("error".toList) = "errores".toList ∧
    type_to_category ("guia".toList) = "guias".toList ∧
    type_to_category ("comportamiento".toList) = "buenas-practicas".toList ∧
    type_to_category ("faq".toList) = "faq".toList ∧
    type_to_category ("novedad".toList) = "novedades".toList ∧
    (t ∉ ["error".toList, "guia".toList, "comportamiento".toList,
      "faq".toList, "novedad".toList] → type_to_category t = t) := by
  refine ⟨?_, by decide, by decide, by decide, by decide, by decide, ?_⟩
  · intro i
    simp [docs_by_type, List.mem_filter, and_assoc]
  · intro hmem
    simp only [List.mem_cons, List.not_mem_nil, or_false, not_or] at hmem
    obtain ⟨n1, n2, n3, n4, n5⟩ := hmem
    rw [type_to_category, if_neg n1, if_neg n2, if_neg n3, if_neg n4, if_neg n5]

/-- Witness for the by-type theorem at an unknown token. -/
theorem c5_witness :
    ((['z'] : Str) ∉ ["error".toList, "guia".toList, "comportamiento".toList,
      "faq".toList, "novedad".toList]) ∧
    type_to_category ['z'] = ['z'] ∧
    (∀ i, i ∈ docs_by_type [cex5] ['z'] ↔
      i ∈ ([cex5] : List Error) ∧ i.type = ['z'] ∧ i.primary_category = type_to_category ['z']) :=
  ⟨by decide, (c5_docs_by_type [cex5] ['z']).2.2.2.2.2.2 (by decide),
   (c5_docs_by_type [cex5] ['z']).1⟩

theorem run_ddl_eq (cols : Schema) (stmts : List Str) : run_ddl cols stmts = cols ++ stmts := by
  induction stmts generalizing cols with
  | nil => simp [run_ddl]
  | cons a t ih => simpa [run_ddl] using ih (cols ++ [a])

/-- Claim C6: one run of the column reconciliation makes all five extended
columns present, and a second run against the resulting schema issues zero
ALTER statements. -/
theorem c6_ensure (cols : Schema) :
    (∀ c ∈ extraColumns, c ∈ ensure_extra_columns cols) ∧
    ensure_ddl (ensure_extra_columns cols) = [] := by
  have key : ∀ c ∈ extraColumns, c ∈ ensure_extra_columns cols := by
    intro c hc
    rw [ensure_extra_columns, run_ddl_eq, List.mem_append]
    by_cases h : c ∈ cols
    · exact Or.inl h
    · right
      simp only [extraColumns, List.mem_cons, List.not_mem_nil, or_false] at hc
      rcases hc with rfl | rfl | rfl | rfl | rfl <;> simp [ensure_ddl, h] <;> simpa using h
  refine ⟨key, ?_⟩
  have h1 := key ("primary_category".toList) (by decide)
  have h2 := key ("description".toList) (by decide)
  have h3 := key ("steps_text".toList) (by decide)
  have h4 := key ("answer_text".toList) (by decide)
  have h5 := key ("tags_text".toList) (by decide)
  simp only [ensure_ddl, if_pos h1, if_pos h2, if_pos h3, if_pos h4, if_pos h5,
    List.nil_append]

/-- Witness for the reconciliation theorem on a legacy baseline schema. -/
theorem c6_witness :
    ("primary_category".toList ∈ extraColumns) ∧
    "primary_category".toList ∈ ensure_extra_columns ["id".toList, "title".toList] ∧
    ensure_ddl (ensure_extra_columns ["id".toList, "title".toList]) = [] :=
  ⟨by decide, (c6_ensure ["id".toList, "title".toList]).1 _ (by decide),
   (c6_ensure ["id".toList, "title".toList]).2⟩

/-- Claim C7: seeding a non-empty table changes nothing; seeding an empty table
inserts, through the repository's create, exactly the two example articles,
both of type "error". -/
theorem c7_seed (db : Store) (h : 0 < db.length) :
    seed_initial_data db = db ∧
    seed_initial_data [] = (create_error_db (create_error_db ([] : Store) e1).1 e2).1 ∧
    (seed_initial_data ([] : Store)).length = 2 ∧
    (∀ r ∈ seed_initial_data ([] : Store), r.type = "error".toList) := by
  refine ⟨by simp [seed_initial_data, h], rfl, rfl, by decide⟩

/-- Witness for the seeder theorem on a one-row store. -/
theorem c7_witness :
    (0 < ([row5] : Store).length) ∧
    (seed_initial_data [row5] = [row5] ∧
     seed_initial_data [] = (create_error_db (create_error_db ([] : Store) e1).1 e2).1 ∧
     (seed_initial_data ([] : Store)).length = 2 ∧
     (∀ r ∈ seed_initial_data ([] : Store), r.type = "error".toList)) :=
  ⟨by decide, c7_seed [row5] (by decide)⟩

theorem delete_eq_filter (i : Int) :
    ∀ (db : Store), (db.map ErrorORM.id).Nodup →
      delete_error_by_id db i = db.filter (fun r => !(r.id == i)) := by
  intro db
  induction db with
  | nil => intro _; rfl
  | cons a t ih =>
    intro hnd
    rw [List.map_cons, List.nodup_cons] at hnd
    obtain ⟨hna, hnt⟩ := hnd
    by_cases ha : a.id = i
    · have hfa : (a.id == i) = true := by simpa using ha
      have ht : ∀ r ∈ t, r.id ≠ i := by
        intro r hr he
        exact hna (List.mem_map.mpr ⟨r, hr, he.trans ha.symm⟩)
      have ht' : t.filter (fun r => !(r.id == i)) = t :=
        List.filter_eq_self.mpr (fun r hr => by simpa using ht r hr)
      simp [delete_error_by_id, List.find?_cons, hfa, List.eraseP_cons, List.filter_cons, ht']
    · have hfa : (a.id == i) = false := by simpa using ha
      cases hft : t.find? (fun r => r.id == i) with
      | none =>
        have ht : ∀ r ∈ t, r.id ≠ i := by
          intro r hr
          have := List.find?_eq_none.mp hft r hr
          simpa using this
        have ht' : t.filter (fun r => !(r.id == i)) = t :=
          List.filter_eq_self.mpr (fun r hr => by simpa using ht r hr)
        simp [delete_error_by_id, List.find?_cons, hfa, hft, List.filter_cons, ht']
      | some w =>
        have ih' := ih hnt
        rw [delete_error_by_id, hft] at ih'
        simp [delete_error_by_id, List.find?_cons, hfa, hft, List.eraseP_cons,
          List.filter_cons]
        exact ih'

/-- Claim C8: deletion never raises; on a store with unique ids it removes
exactly the rows carrying the requested id (at most one) and leaves every other
row unchanged in place — in particular, deleting an id no row carries is a
no-op. -/
theorem c8_delete (db : Store) (i : Int) (h : (db.map ErrorORM.id).Nodup) :
    delete_error_by_id db i = db.filter (fun r => !(r.id == i)) ∧
    ((∀ r ∈ db, r.id ≠ i) → delete_error_by_id db i = db) := by
  refine ⟨delete_eq_filter i db h, fun hnone => ?_⟩
  rw [delete_eq_filter i db h]
  exact List.filter_eq_self.mpr (fun r hr => by simpa using hnone r hr)

/-- Witness for the deletion theorem: both branches applied on a concrete
two-row store. -/
theorem c8_witness :
    ((([row5, row6] : Store).map ErrorORM.id).Nodup) ∧
    (∀ r ∈ ([row5, row6] : Store), r.id ≠ 9) ∧
    delete_error_by_id [row5, row6] 5 = ([row5, row6] : Store).filter (fun r => !(r.id == 5)) ∧
    delete_error_by_id [row5, row6] 9 = [row5, row6] :=
  ⟨by decide, by decide, (c8_delete [row5, row6] 5 (by decide)).1,
   (c8_delete [row5, row6] 9 (by decide)).2 (by decide)⟩

theorem find_unique_id (db : Store) (i : Int) (r : ErrorORM) (hr : r ∈ db) (hid : r.id = i)
    (hnd : (db.map ErrorORM.id).Nodup) : db.find? (fun x => x.id == i) = some r := by
  induction db with
  | nil => cases hr
  | cons a t ih =>
    rw [List.map_cons, List.nodup_cons] at hnd
    obtain ⟨hna, hnt⟩ := hnd
    rcases List.mem_cons.mp hr with rfl | hrt
    · have hfa : (r.id == i) = true := by simpa using hid
      simp [List.find?_cons, hfa]
    · have hai : a.id ≠ i := by
        intro he
        exact hna (List.mem_map.mpr ⟨r, hrt, hid.trans he.symm⟩)
      have hfa : (a.id == i) = false := by simpa using hai
      simp [List.find?_cons, hfa, ih hrt hnt]

/-- Claim C9: looking an id up never raises — it yields the mapped article when
a row carries the id and `none` otherwise; the detail view renders the mapped
article when found and otherwise a 404 response with body
"Error no encontrado". -/
theorem c9_get_detail (db : Store) (i : Int) :
    ((∀ r ∈ db, r.id ≠ i) →
      get_error_by_id db i = none ∧
      error_detail db i = DetailResponse.html ("Error no encontrado".toList) 404) ∧
    (∀ r ∈ db, r.id = i → (db.map ErrorORM.id).Nodup →
      get_error_by_id db i = some (orm_to_pydantic r) ∧
      error_detail db i = DetailResponse.page (orm_to_pydantic r)) := by
  constructor
  · intro hnone
    have hf : db.find? (fun x => x.id == i) = none :=
      List.find?_eq_none.mpr (fun x hx => by simpa using hnone x hx)
    exact ⟨by simp [get_error_by_id, hf], by simp [error_detail, get_error_by_id, hf]⟩
  · intro r hr hid hnd
    have hf := find_unique_id db i r hr hid hnd
    exact ⟨by simp [get_error_by_id, hf], by simp [error_detail, get_error_by_id, hf]⟩

/-- Witness for the lookup/detail theorem: both branches applied on a concrete
one-row store. -/
theorem c9_witness :
    (∀ r ∈ ([row5] : Store), r.id ≠ 9) ∧
    (row5 ∈ ([row5] : Store)) ∧ row5.id = 5 ∧ ((([row5] : Store).map ErrorORM.id).Nodup) ∧
    (get_error_by_id [row5] 9 = none ∧
     error_detail [row5] 9 = DetailResponse.html ("Error no encontrado".toList) 404) ∧
    (get_error_by_id [row5] 5 = some (orm_to_pydantic row5) ∧
     error_detail [row5] 5 = DetailResponse.page (orm_to_pydantic row5)) :=
  ⟨by decide, by decide, by decide, by decide,
   (c9_get_detail [row5] 9).1 (by decide),
   (c9_get_detail [row5] 5).2 row5 (by decide) (by decide) (by decide)⟩

/-- Claim C10: the row data built from any draft — even one whose optional
`category`, `short_description` or `client_message` is absent — carries a
string (never null) in those columns, coalesced with `or`; and the repository's
create inserts exactly the row built from that data, so the inserted row meets
the table's NOT NULL constraints on those columns. -/
theorem c10_not_null (d : ErrorBase) (db : Store) :
    rowValue (pydantic_to_orm_data d) ("category".toList) = SqlVal.str (pyOrStr d.category []) ∧
    rowValue (pydantic_to_orm_data d) ("short_description".toList) =
      SqlVal.str (pyOr d.short_description []) ∧
    rowValue (pydantic_to_orm_data d) ("client_message".toList) =
      SqlVal.str (pyOr d.client_message []) ∧
    (∀ c ∈ ["category".toList, "short_description".toList, "client_message".toList],
      rowValue (pydantic_to_orm_data d) c ≠ SqlVal.null) ∧
    (create_error_db db d).1 = db ++ [mkOrm (nextId db) (pydantic_to_orm_data d)] := by
  refine ⟨rfl, rfl, rfl, ?_, rfl⟩
  intro c hc
  simp only [List.mem_cons, List.not_mem_nil, or_false] at hc
  rcases hc with rfl | rfl | rfl
  · exact show SqlVal.str (pyOrStr d.category []) ≠ SqlVal.null from by simp
  · exact show SqlVal.str (pyOr d.short_description []) ≠ SqlVal.null from by simp
  · exact show SqlVal.str (pyOr d.client_message []) ≠ SqlVal.null from by simp

/-- Witness for the NOT NULL theorem on a draft whose optional fields are all
absent. -/
theorem c10_witness :
    ("short_description".toList ∈
      ["category".toList, "short_description".toList, "client_message".toList]) ∧
    rowValue (pydantic_to_orm_data cex1) ("short_description".toList) ≠ SqlVal.null ∧
    (create_error_db [] cex1).1 = [] ++ [mkOrm (nextId []) (pydantic_to_orm_data cex1)] :=
  ⟨by decide, (c10_not_null cex1 []).2.2.2.1 _ (by decide), (c10_not_null cex1 []).2.2.2.2⟩

end HelpCenter
